import Mathlib

/-!
Shallow embedding of `src/pytensordock/api.py` (class `TensorDockWrapper`).

The Python client translates typed method calls into HTTP requests against a
fixed base URL.  We model:

  * Python values appearing in request payloads / query parameters and in
    decoded JSON responses as `PyVal` (None, bool, int, str, list, dict —
    dicts are insertion-ordered association lists, as in Python 3.7+);
  * the client object as the immutable record `Client`;
  * the single HTTP request a method issues as `Request` (method, full url,
    optional form body `payload`, optional query `params`), mirroring the
    arguments the code passes to `requests.request(method, url, data=payload,
    params=params)`;
  * the network outcome as `HttpOutcome`: either the `requests.request` call
    itself raises (`transportError`, e.g. a connection timeout) or a response
    with a status code and a decoded JSON body arrives;
  * each public method as a function from the client, its arguments and the
    `HttpOutcome` to an `OpResult` holding the issued request, the value the
    method returns to the caller (`Except String PyVal`: `.error msg` is an
    uncaught Python exception propagating out of the method, `.ok v` a normal
    return of the Python value `v`), the values pretty-printed to the console,
    and the client state after the call.

Every method of the source calls `self._send_request` exactly once, so the
single `request` field of `OpResult` records the one request issued.
-/

set_option autoImplicit false

/-- Python values used by the client: payload/params entries and decoded
JSON responses.  Dicts keep insertion order, as Python dicts do. -/
inductive PyVal where
  | none : PyVal
  | bool : Bool → PyVal
  | int : Int → PyVal
  | str : String → PyVal
  | list : List PyVal → PyVal
  | dict : List (String × PyVal) → PyVal

/-- `str(b)` for a Python bool: `"True"` / `"False"`. -/
def pyStrOfBool (b : Bool) : String :=
  if b then "True" else "False"

/-- Python's `str.lower()` (ASCII case folding, which coincides with
Python's behaviour on the `"True"` / `"False"` strings it is applied to). -/
def pyLower (s : String) : String :=
  String.mk (s.data.map Char.toLower)

/-- An optional-int argument passed straight into a params dict:
`None` stays `None`, an int stays an int (no stringification in the code). -/
def pyOfOptInt : Option Int → PyVal
  | Option.none => PyVal.none
  | Option.some n => PyVal.int n

/-- An optional-bool argument passed straight into a params dict. -/
def pyOfOptBool : Option Bool → PyVal
  | Option.none => PyVal.none
  | Option.some b => PyVal.bool b

/-- An optional-string argument passed straight into a payload dict
(`cpu_model`, `location`, `cloudinit_script`, `price_type` in
`deploy_machine` are forwarded unconverted). -/
def pyOfOptStr : Option String → PyVal
  | Option.none => PyVal.none
  | Option.some s => PyVal.str s

/-- `str(price)` for the optional float `price` of `deploy_machine`:
`str(None)` is the literal string `"None"`; a real float is formatted by
Python's float repr (the exact digits of that case are irrelevant to the
claims, which only concern the `None` branch). -/
def pyStrOfOptFloat : Option Float → String
  | Option.none => "None"
  | Option.some f => toString f

/-- The client object: fields set by `TensorDockWrapper.__init__` and never
reassigned anywhere in the class. -/
structure Client where
  base_url : String
  api_key : String
  api_token : String
  debug : Bool
  deriving DecidableEq, Repr

/-- `TensorDockWrapper.__init__`: stores the credentials and the debug flag
and fixes the marketplace base URL. -/
def TensorDockWrapper.init (api_key : String) (api_token : String)
    (debug : Bool) : Client :=
  { base_url := "https://marketplace.tensordock.com/api/v0/"
    api_key := api_key
    api_token := api_token
    debug := debug }

/-- The one HTTP request a method issues: the arguments of
`requests.request(method, url, data=payload, params=params)`. -/
structure Request where
  method : String
  url : String
  payload : Option (List (String × PyVal))
  params : Option (List (String × PyVal))

/-- Outcome of the `requests.request` call: the call itself raises a
`requests` exception (connection error, timeout, ...), or a response with a
status code and a decoded JSON body arrives. -/
inductive HttpOutcome where
  | transportError : String → HttpOutcome
  | response : Nat → PyVal → HttpOutcome

/-- `response.raise_for_status()` raises `requests.exceptions.HTTPError`
exactly for 4xx and 5xx status codes. -/
def raiseForStatusRaises (status : Nat) : Bool :=
  400 ≤ status && status < 600

/-- The message of the `HTTPError` raised by `raise_for_status`:
`"<status> Client Error ... for url: <url>"` for 4xx,
`"<status> Server Error ... for url: <url>"` for 5xx (the response reason
phrase in the middle is elided; the claims only use that the message is a
non-empty string). -/
def httpErrorStr (status : Nat) (url : String) : String :=
  toString status ++ (if status < 500 then " Client Error" else " Server Error")
    ++ " for url: " ++ url

/-- Result of `self._send_request(...)`: the request that was issued and
either the value the call returns (`.ok`) or the message of an uncaught
exception propagating out of it (`.error`). -/
structure SendResult where
  request : Request
  result : Except String PyVal

/-- `TensorDockWrapper._send_request`.  `url = self.base_url + endpoint`;
`requests.request(method, url, data=payload, params=params)` sits OUTSIDE
the `try` block, so a transport error raises out of the method uncaught.
Inside the `try`, `raise_for_status` turns a 4xx/5xx answer into an
`HTTPError`, which the `except requests.exceptions.RequestException` clause
catches and converts to the dict `{"error": str(e)}`; otherwise the decoded
JSON body `response.json()` is returned. -/
def _send_request (c : Client) (method : String) (endpoint : String)
    (payload : Option (List (String × PyVal)))
    (params : Option (List (String × PyVal)))
    (outcome : HttpOutcome) : SendResult :=
  let url := c.base_url ++ endpoint
  let req : Request := { method := method, url := url, payload := payload, params := params }
  match outcome with
  | HttpOutcome.transportError msg => { request := req, result := Except.error msg }
  | HttpOutcome.response status body =>
      if raiseForStatusRaises status then
        { request := req
          result := Except.ok (PyVal.dict [("error", PyVal.str (httpErrorStr status url))]) }
      else
        { request := req, result := Except.ok body }

/-- `TensorDockWrapper._parse_response`: pretty-prints the response to the
console (`json.dumps(response, indent=2)`) and falls off the end of the
function, so its Python return value is `None`.  We model the console effect
as the list of values printed, not the rendered text (no claim inspects the
text). -/
def _parse_response (r : PyVal) : PyVal × List PyVal :=
  (PyVal.none, [r])

/-- What a public method call produces: the single HTTP request it issued,
the value returned to the caller (or an uncaught exception message), the
values printed to the console, and the client state after the call. -/
structure OpResult where
  request : Request
  ret : Except String PyVal
  printed : List PyVal
  client : Client

/-- The common epilogue of most methods:
`response = self._send_request(...); if self.debug: self._parse_response(response); return response`.
If `_send_request` raised, the exception propagates before any printing. -/
def finishStandard (c : Client) (s : SendResult) : OpResult :=
  match s.result with
  | Except.error e => { request := s.request, ret := Except.error e, printed := [], client := c }
  | Except.ok v =>
      if c.debug then
        let p := _parse_response v
        { request := s.request, ret := Except.ok v, printed := p.2, client := c }
      else
        { request := s.request, ret := Except.ok v, printed := [], client := c }

/-- The epilogue of `list_available_hostnodes` and `get_specific_hostnode`:
`response = self._parse_response(self._send_request(...)); if self.debug: self._parse_response(response); return response`.
`_parse_response` returns Python `None`, so `response` is `None`. -/
def finishParsed (c : Client) (s : SendResult) : OpResult :=
  match s.result with
  | Except.error e => { request := s.request, ret := Except.error e, printed := [], client := c }
  | Except.ok v =>
      let p := _parse_response v
      if c.debug then
        let q := _parse_response p.1
        { request := s.request, ret := Except.ok p.1, printed := p.2 ++ q.2, client := c }
      else
        { request := s.request, ret := Except.ok p.1, printed := p.2, client := c }

/-- `TensorDockWrapper.stop_server`. -/
def stop_server (c : Client) (server_uuid : String)
    (disassociate_resources : Bool) (outcome : HttpOutcome) : OpResult :=
  let payload := [
    ("api_key", PyVal.str c.api_key),
    ("api_token", PyVal.str c.api_token),
    ("server", PyVal.str server_uuid),
    ("disassociate_resources", PyVal.str (pyLower (pyStrOfBool disassociate_resources)))]
  finishStandard c (_send_request c "POST" "client/stop/single" (Option.some payload) Option.none outcome)

/-- `TensorDockWrapper.start_server`. -/
def start_server (c : Client) (vm_uuid : String) (outcome : HttpOutcome) : OpResult :=
  let payload := [
    ("api_key", PyVal.str c.api_key),
    ("api_token", PyVal.str c.api_token),
    ("server", PyVal.str vm_uuid)]
  finishStandard c (_send_request c "POST" "client/start/single" (Option.some payload) Option.none outcome)

/-- `TensorDockWrapper.test_authorization`. -/
def test_authorization (c : Client) (outcome : HttpOutcome) : OpResult :=
  let payload := [
    ("api_key", PyVal.str c.api_key),
    ("api_token", PyVal.str c.api_token)]
  finishStandard c (_send_request c "POST" "auth/test" (Option.some payload) Option.none outcome)

/-- `TensorDockWrapper.get_specific_hostnode`: a GET to
`client/deploy/hostnodes/<id>` with NO payload and NO params, whose
`_send_request` result is fed through `_parse_response`. -/
def get_specific_hostnode (c : Client) (id : String) (outcome : HttpOutcome) : OpResult :=
  finishParsed c
    (_send_request c "GET" ("client/deploy/hostnodes/" ++ id) Option.none Option.none outcome)

/-- `TensorDockWrapper.modify_server`. -/
def modify_server (c : Client) (server_uuid : String) (gpu_model : String)
    (gpu_count : Int) (ram : Int) (vcpus : Int) (storage : Int)
    (outcome : HttpOutcome) : OpResult :=
  let payload := [
    ("api_key", PyVal.str c.api_key),
    ("api_token", PyVal.str c.api_token),
    ("server_id", PyVal.str server_uuid),
    ("gpu_model", PyVal.str gpu_model),
    ("gpu_count", PyVal.str (toString gpu_count)),
    ("ram", PyVal.str (toString ram)),
    ("vcpus", PyVal.str (toString vcpus)),
    ("storage", PyVal.str (toString storage))]
  finishStandard c (_send_request c "POST" "client/modify/single" (Option.some payload) Option.none outcome)

/-- `TensorDockWrapper.delete_server`. -/
def delete_server (c : Client) (server_uuid : String) (outcome : HttpOutcome) : OpResult :=
  let payload := [
    ("api_key", PyVal.str c.api_key),
    ("api_token", PyVal.str c.api_token),
    ("server", PyVal.str server_uuid)]
  finishStandard c (_send_request c "POST" "client/delete/single" (Option.some payload) Option.none outcome)

/-- `TensorDockWrapper.list_virtual_machines`. -/
def list_virtual_machines (c : Client) (outcome : HttpOutcome) : OpResult :=
  let payload := [
    ("api_key", PyVal.str c.api_key),
    ("api_token", PyVal.str c.api_token)]
  finishStandard c (_send_request c "POST" "client/list" (Option.some payload) Option.none outcome)

/-- `TensorDockWrapper.get_vm_details`. -/
def get_vm_details (c : Client) (server_uuid : String) (outcome : HttpOutcome) : OpResult :=
  let payload := [
    ("api_key", PyVal.str c.api_key),
    ("api_token", PyVal.str c.api_token),
    ("server", PyVal.str server_uuid)]
  finishStandard c (_send_request c "POST" "client/get/single" (Option.some payload) Option.none outcome)

/-- `TensorDockWrapper.soft_validate_new_spot_instance`. -/
def soft_validate_new_spot_instance (c : Client) (gpu_count : Int)
    (gpu_model : String) (vcpus : Int) (hostnode : String) (ram : Int)
    (storage : Int) (price : Float) (outcome : HttpOutcome) : OpResult :=
  let payload := [
    ("gpu_count", PyVal.str (toString gpu_count)),
    ("gpu_model", PyVal.str gpu_model),
    ("vcpus", PyVal.str (toString vcpus)),
    ("hostnode", PyVal.str hostnode),
    ("ram", PyVal.str (toString ram)),
    ("storage", PyVal.str (toString storage)),
    ("price", PyVal.str (toString price)),
    ("api_key", PyVal.str c.api_key),
    ("api_token", PyVal.str c.api_token)]
  finishStandard c (_send_request c "POST" "client/spot/validate/new" (Option.some payload) Option.none outcome)

/-- `TensorDockWrapper.soft_validate_existing_spot_instance` (the source
posts to the same `client/spot/validate/new` endpoint). -/
def soft_validate_existing_spot_instance (c : Client) (server : String)
    (price : Float) (outcome : HttpOutcome) : OpResult :=
  let payload := [
    ("server", PyVal.str server),
    ("price", PyVal.str (toString price)),
    ("api_key", PyVal.str c.api_key),
    ("api_token", PyVal.str c.api_token)]
  finishStandard c (_send_request c "POST" "client/spot/validate/new" (Option.some payload) Option.none outcome)

/-- `TensorDockWrapper.deploy_machine`.  Numeric fields are stringified with
`str(...)`; the port lists become `"\x7b" + ", ".join(map(str, ports)) + "\x7d"`;
the optional string fields are forwarded unconverted (Python `None` when
omitted); `price` is stringified, so an omitted `price` becomes the literal
string `"None"`. -/
def deploy_machine (c : Client) (name : String) (gpu_count : Int)
    (gpu_model : String) (vcpus : Int) (ram : Int)
    (external_ports : List Int) (internal_ports : List Int)
    (hostnode : String) (storage : Int) (operating_system : String)
    (password : String) (deployment_type : String)
    (cpu_model : Option String) (location : Option String)
    (cloudinit_script : Option String) (price_type : Option String)
    (price : Option Float) (outcome : HttpOutcome) : OpResult :=
  let payload := [
    ("api_key", PyVal.str c.api_key),
    ("api_token", PyVal.str c.api_token),
    ("name", PyVal.str name),
    ("gpu_count", PyVal.str (toString gpu_count)),
    ("gpu_model", PyVal.str gpu_model),
    ("vcpus", PyVal.str (toString vcpus)),
    ("ram", PyVal.str (toString ram)),
    ("external_ports", PyVal.str ("\x7b" ++ String.intercalate ", " (external_ports.map toString) ++ "\x7d")),
    ("internal_ports", PyVal.str ("\x7b" ++ String.intercalate ", " (internal_ports.map toString) ++ "\x7d")),
    ("hostnode", PyVal.str hostnode),
    ("storage", PyVal.str (toString storage)),
    ("operating_system", PyVal.str operating_system),
    ("password", PyVal.str password),
    ("deployment_type", PyVal.str deployment_type),
    ("cpu_model", pyOfOptStr cpu_model),
    ("location", pyOfOptStr location),
    ("cloudinit_script", pyOfOptStr cloudinit_script),
    ("price_type", pyOfOptStr price_type),
    ("price", PyVal.str (pyStrOfOptFloat price))]
  finishStandard c (_send_request c "POST" "client/deploy/single" (Option.some payload) Option.none outcome)

/-- `TensorDockWrapper.list_available_hostnodes`: a GET whose query params
carry the credentials and the optional filters; the optional filters —
including the booleans `requires_rtx` / `requires_gtx` — are forwarded
unconverted, and the `_send_request` result is fed through
`_parse_response`. -/
def list_available_hostnodes (c : Client) (min_vcpus : Option Int)
    (min_ram : Option Int) (min_storage : Option Int) (min_vram : Option Int)
    (min_gpu_count : Option Int) (requires_rtx : Option Bool)
    (requires_gtx : Option Bool) (outcome : HttpOutcome) : OpResult :=
  let params := [
    ("api_key", PyVal.str c.api_key),
    ("api_token", PyVal.str c.api_token),
    ("minvCPUs", pyOfOptInt min_vcpus),
    ("minRAM", pyOfOptInt min_ram),
    ("minStorage", pyOfOptInt min_storage),
    ("minVRAM", pyOfOptInt min_vram),
    ("minGPUCount", pyOfOptInt min_gpu_count),
    ("requiresRTX", pyOfOptBool requires_rtx),
    ("requiresGTX", pyOfOptBool requires_gtx)]
  finishParsed c (_send_request c "GET" "client/deploy/hostnodes" Option.none (Option.some params) outcome)

/-- `TensorDockWrapper.list_authorizations`. -/
def list_authorizations (c : Client) (outcome : HttpOutcome) : OpResult :=
  let payload := [
    ("api_key", PyVal.str c.api_key),
    ("api_token", PyVal.str c.api_token)]
  finishStandard c (_send_request c "POST" "auth/list" (Option.some payload) Option.none outcome)

/-- `TensorDockWrapper.retrieve_balance`. -/
def retrieve_balance (c : Client) (outcome : HttpOutcome) : OpResult :=
  let payload := [
    ("api_key", PyVal.str c.api_key),
    ("api_token", PyVal.str c.api_token)]
  finishStandard c (_send_request c "POST" "billing/balance" (Option.some payload) Option.none outcome)

/-- A call of one public endpoint method with its arguments: quantifying
over `OpCall` quantifies over every public endpoint operation of the client
and every input. -/
inductive OpCall where
  | stop_server (server_uuid : String) (disassociate_resources : Bool)
  | start_server (vm_uuid : String)
  | modify_server (server_uuid : String) (gpu_model : String)
      (gpu_count : Int) (ram : Int) (vcpus : Int) (storage : Int)
  | delete_server (server_uuid : String)
  | list_virtual_machines
  | get_vm_details (server_uuid : String)
  | soft_validate_new_spot_instance (gpu_count : Int) (gpu_model : String)
      (vcpus : Int) (hostnode : String) (ram : Int) (storage : Int) (price : Float)
  | soft_validate_existing_spot_instance (server : String) (price : Float)
  | deploy_machine (name : String) (gpu_count : Int) (gpu_model : String)
      (vcpus : Int) (ram : Int) (external_ports : List Int)
      (internal_ports : List Int) (hostnode : String) (storage : Int)
      (operating_system : String) (password : String) (deployment_type : String)
      (cpu_model : Option String) (location : Option String)
      (cloudinit_script : Option String) (price_type : Option String)
      (price : Option Float)
  | list_available_hostnodes (min_vcpus : Option Int) (min_ram : Option Int)
      (min_storage : Option Int) (min_vram : Option Int)
      (min_gpu_count : Option Int) (requires_rtx : Option Bool)
      (requires_gtx : Option Bool)
  | list_authorizations
  | retrieve_balance
  | test_authorization
  | get_specific_hostnode (id : String)

/-- Run one public endpoint method call on a client under a given HTTP
outcome. -/
def runOp (c : Client) (op : OpCall) (outcome : HttpOutcome) : OpResult :=
  match op with
  | OpCall.stop_server u d => stop_server c u d outcome
  | OpCall.start_server u => start_server c u outcome
  | OpCall.modify_server u gm gc r v s => modify_server c u gm gc r v s outcome
  | OpCall.delete_server u => delete_server c u outcome
  | OpCall.list_virtual_machines => list_virtual_machines c outcome
  | OpCall.get_vm_details u => get_vm_details c u outcome
  | OpCall.soft_validate_new_spot_instance gc gm v h r s p =>
      soft_validate_new_spot_instance c gc gm v h r s p outcome
  | OpCall.soft_validate_existing_spot_instance u p =>
      soft_validate_existing_spot_instance c u p outcome
  | OpCall.deploy_machine n gc gm v r ep ip h s os pw dt cm lo ci pt pr =>
      deploy_machine c n gc gm v r ep ip h s os pw dt cm lo ci pt pr outcome
  | OpCall.list_available_hostnodes a b d e f g h =>
      list_available_hostnodes c a b d e f g h outcome
  | OpCall.list_authorizations => list_authorizations c outcome
  | OpCall.retrieve_balance => retrieve_balance c outcome
  | OpCall.test_authorization => test_authorization c outcome
  | OpCall.get_specific_hostnode i => get_specific_hostnode c i outcome

/-- A payload / params dict carries the client's credentials: both the
`api_key` and the `api_token` entry are present with the stored values. -/
def credentialed (c : Client) : Option (List (String × PyVal)) → Prop
  | Option.none => False
  | Option.some l =>
      ("api_key", PyVal.str c.api_key) ∈ l ∧ ("api_token", PyVal.str c.api_token) ∈ l

/-- The request attaches the stored credentials the way the spec describes:
as body fields for a POST, as query parameters for a GET. -/
def carriesCredentials (c : Client) (r : Request) : Prop :=
  (r.method = "POST" → credentialed c r.payload) ∧
  (r.method = "GET" → credentialed c r.params)

theorem _send_request_request (c : Client) (m e : String)
    (p q : Option (List (String × PyVal))) (o : HttpOutcome) :
    (_send_request c m e p q o).request
      = { method := m, url := c.base_url ++ e, payload := p, params := q } := by
  cases o with
  | transportError msg => rfl
  | response status body =>
      by_cases h : raiseForStatusRaises status <;> simp [_send_request, h]

theorem finishStandard_request (c : Client) (s : SendResult) :
    (finishStandard c s).request = s.request := by
  obtain ⟨req, r⟩ := s
  cases r <;> by_cases h : c.debug <;> simp [finishStandard, h]

theorem finishStandard_ret (c : Client) (s : SendResult) :
    (finishStandard c s).ret = s.result := by
  obtain ⟨req, r⟩ := s
  cases r <;> by_cases h : c.debug <;> simp [finishStandard, h]

theorem finishStandard_client (c : Client) (s : SendResult) :
    (finishStandard c s).client = c := by
  obtain ⟨req, r⟩ := s
  cases r <;> by_cases h : c.debug <;> simp [finishStandard, h]

theorem finishParsed_request (c : Client) (s : SendResult) :
    (finishParsed c s).request = s.request := by
  obtain ⟨req, r⟩ := s
  cases r <;> by_cases h : c.debug <;> simp [finishParsed, h]

theorem finishParsed_ret (c : Client) (s : SendResult) :
    (finishParsed c s).ret = Except.map (fun _ => PyVal.none) s.result := by
  obtain ⟨req, r⟩ := s
  cases r <;> by_cases h : c.debug <;> simp [finishParsed, _parse_response, Except.map, h]

theorem finishParsed_client (c : Client) (s : SendResult) :
    (finishParsed c s).client = c := by
  obtain ⟨req, r⟩ := s
  cases r <;> by_cases h : c.debug <;> simp [finishParsed, h]

/-- C1: the claim says every endpoint operation returns the decoded JSON of
a successful (2xx, JSON body) response, in particular
`list_available_hostnodes` and `get_specific_hostnode`.  The code disagrees
for exactly those two methods: they wrap `_send_request` in
`_parse_response`, which only pretty-prints and falls off the end, so both
return Python `None` on success — contradicting their own docstrings
("Returns: dict: The JSON response").  This theorem evaluates the code at
the failing inputs, and shows a standard method (`test_authorization`)
does return the decoded body, isolating the bug to the two wrapped calls. -/
theorem C1_hostnode_ops_return_none_not_json :
    (get_specific_hostnode (TensorDockWrapper.init "KEY" "TOKEN" false) "abc-123"
        (HttpOutcome.response 200 (PyVal.dict [("success", PyVal.bool true)]))).ret
      = Except.ok PyVal.none ∧
    (list_available_hostnodes (TensorDockWrapper.init "KEY" "TOKEN" false)
        Option.none Option.none Option.none Option.none Option.none Option.none Option.none
        (HttpOutcome.response 200 (PyVal.dict [("hostnodes", PyVal.list [])]))).ret
      = Except.ok PyVal.none ∧
    (test_authorization (TensorDockWrapper.init "KEY" "TOKEN" false)
        (HttpOutcome.response 200 (PyVal.dict [("success", PyVal.bool true)]))).ret
      = Except.ok (PyVal.dict [("success", PyVal.bool true)]) :=
  ⟨rfl, rfl, rfl⟩

/-- C2 counterexample: `get_specific_hostnode` sends a request with no
payload and no params at all, so neither `api_key` nor `api_token` is
attached — refuting "every public endpoint operation carries both
credentials, in particular get_specific_hostnode". -/
theorem C2_counterexample :
    (get_specific_hostnode (TensorDockWrapper.init "KEY" "TOKEN" false) "abc-123"
        (HttpOutcome.response 200 (PyVal.dict []))).request.payload = Option.none ∧
    (get_specific_hostnode (TensorDockWrapper.init "KEY" "TOKEN" false) "abc-123"
        (HttpOutcome.response 200 (PyVal.dict []))).request.params = Option.none ∧
    ¬ carriesCredentials (TensorDockWrapper.init "KEY" "TOKEN" false)
        (get_specific_hostnode (TensorDockWrapper.init "KEY" "TOKEN" false) "abc-123"
          (HttpOutcome.response 200 (PyVal.dict []))).request := by
  refine ⟨rfl, rfl, fun h => ?_⟩
  exact h.2 rfl

/-- C2 (amended): every public endpoint operation EXCEPT
`get_specific_hostnode` attaches both stored credentials — in the body for
the POST operations, in the query parameters for the GET operation
`list_available_hostnodes`; `get_specific_hostnode` sends neither payload
nor params. -/
theorem C2_credentials_attached (k t : String) (d : Bool) (op : OpCall)
    (o : HttpOutcome) (h : ∀ i, op ≠ OpCall.get_specific_hostnode i) :
    carriesCredentials (TensorDockWrapper.init k t d)
      (runOp (TensorDockWrapper.init k t d) op o).request := by
  cases op with
  | get_specific_hostnode i => exact absurd rfl (h i)
  | _ =>
      constructor <;> intro hm <;>
        simp_all [runOp, stop_server, start_server, modify_server, delete_server,
          list_virtual_machines, get_vm_details, soft_validate_new_spot_instance,
          soft_validate_existing_spot_instance, deploy_machine,
          list_available_hostnodes, list_authorizations, retrieve_balance,
          test_authorization, finishStandard_request, finishParsed_request,
          _send_request_request, credentialed]

/-- C2 witness: `test_authorization` is not `get_specific_hostnode`, and its
request carries the stored credentials. -/
theorem C2_witness :
    carriesCredentials (TensorDockWrapper.init "KEY" "TOKEN" false)
      (runOp (TensorDockWrapper.init "KEY" "TOKEN" false) OpCall.test_authorization
        (HttpOutcome.response 200 (PyVal.dict []))).request :=
  C2_credentials_attached "KEY" "TOKEN" false OpCall.test_authorization
    (HttpOutcome.response 200 (PyVal.dict []))
    (fun _ h => OpCall.noConfusion h)

/-- C3: the claim says a transport failure or a non-2xx status always yields
`{"error": <non-empty string>}` and never an exception.  In the code
`requests.request` sits OUTSIDE the `try` block, so a transport failure
(e.g. a network timeout) raises out of the method uncaught; only the
non-2xx path (`raise_for_status` inside the `try`) is converted to the
error dict.  This theorem evaluates both paths of `test_authorization`:
the timeout escapes as an exception, while an HTTP 500 answer does return
the error dictionary. -/
theorem C3_transport_error_escapes :
    (test_authorization (TensorDockWrapper.init "KEY" "TOKEN" false)
        (HttpOutcome.transportError "HTTPSConnectionPool: Read timed out")).ret
      = Except.error "HTTPSConnectionPool: Read timed out" ∧
    (test_authorization (TensorDockWrapper.init "KEY" "TOKEN" false)
        (HttpOutcome.response 500 (PyVal.dict []))).ret
      = Except.ok (PyVal.dict [("error",
          PyVal.str "500 Server Error for url: https://marketplace.tensordock.com/api/v0/auth/test")]) := by
  constructor
  · rfl
  · rfl

/-- C4 counterexample: `list_available_hostnodes` puts the raw Python
boolean into the query params — `requires_rtx=True` is transmitted as the
boolean `True`, not as the lowercase string `"true"` — refuting "every
boolean flag input is placed in the payload or query parameters as exactly
the string \x22true\x22 or \x22false\x22". -/
theorem C4_counterexample :
    ((list_available_hostnodes (TensorDockWrapper.init "KEY" "TOKEN" false)
        Option.none Option.none Option.none Option.none Option.none
        (Option.some true) (Option.some false)
        (HttpOutcome.response 200 (PyVal.dict []))).request.params.getD []).lookup "requiresRTX"
      = Option.some (PyVal.bool true) ∧
    Option.some (PyVal.bool true) ≠ Option.some (PyVal.str "true") := by
  refine ⟨?_, fun h => PyVal.noConfusion (Option.some.inj h)⟩
  simp only [list_available_hostnodes, finishParsed_request, _send_request_request]
  rfl

/-- C4 (amended): `stop_server` serializes `disassociate_resources` with
`str(...).lower()`, giving exactly the lowercase `"true"` / `"false"`;
`list_available_hostnodes` forwards `requires_rtx` / `requires_gtx`
unconverted as raw booleans (Python `None` when omitted), leaving their
rendering to the HTTP library's urlencoding (which prints Python booleans
as `True` / `False`). -/
theorem C4_lowercase_only_for_stop_server (k t : String) (d : Bool)
    (u : String) (b : Bool) (mv mr ms mvr mg : Option Int)
    (rr rg : Option Bool) (o : HttpOutcome) :
    ((stop_server (TensorDockWrapper.init k t d) u b o).request.payload.getD []).lookup
        "disassociate_resources"
      = Option.some (PyVal.str (if b then "true" else "false")) ∧
    ((list_available_hostnodes (TensorDockWrapper.init k t d) mv mr ms mvr mg rr rg
        o).request.params.getD []).lookup "requiresRTX"
      = Option.some (pyOfOptBool rr) ∧
    ((list_available_hostnodes (TensorDockWrapper.init k t d) mv mr ms mvr mg rr rg
        o).request.params.getD []).lookup "requiresGTX"
      = Option.some (pyOfOptBool rg) := by
  refine ⟨?_, ?_, ?_⟩
  · simp only [stop_server, finishStandard_request, _send_request_request]
    cases b <;> rfl
  · simp only [list_available_hostnodes, finishParsed_request, _send_request_request]
    rfl
  · simp only [list_available_hostnodes, finishParsed_request, _send_request_request]
    rfl

/-- C5: for every pair of port lists passed to `deploy_machine`, the
`external_ports` and `internal_ports` payload fields are the string made of
`"\x7b"`, the elements joined by `", "` (comma + space), and `"\x7d"`; in
particular the list `[80, 443]` serializes to `"\x7b80, 443\x7d"`. -/
theorem C5_deploy_ports_serialization (k t : String) (d : Bool) (n : String)
    (gc : Int) (gm : String) (v r : Int) (ep ip : List Int) (hn : String)
    (s : Int) (os pw dt : String) (cm lo ci pt : Option String)
    (pr : Option Float) (o : HttpOutcome) :
    (((deploy_machine (TensorDockWrapper.init k t d) n gc gm v r ep ip hn s os pw dt
        cm lo ci pt pr o).request.payload.getD []).lookup "external_ports"
      = Option.some (PyVal.str ("\x7b" ++ String.intercalate ", " (ep.map toString) ++ "\x7d"))) ∧
    (((deploy_machine (TensorDockWrapper.init k t d) n gc gm v r ep ip hn s os pw dt
        cm lo ci pt pr o).request.payload.getD []).lookup "internal_ports"
      = Option.some (PyVal.str ("\x7b" ++ String.intercalate ", " (ip.map toString) ++ "\x7d"))) ∧
    "\x7b" ++ String.intercalate ", " (([80, 443] : List Int).map toString) ++ "\x7d"
      = "\x7b80, 443\x7d" := by
  refine ⟨?_, ?_, by decide⟩ <;>
    (simp only [deploy_machine, finishStandard_request, _send_request_request]; rfl)

/-- C6: for every operation, every input and every fixed HTTP outcome, the
value returned to the caller is the same whether the client was built with
`debug=True` or `debug=False`: the debug flag only adds console printing. -/
theorem C6_debug_has_no_effect_on_return (k t : String) (op : OpCall)
    (o : HttpOutcome) :
    (runOp (TensorDockWrapper.init k t true) op o).ret
      = (runOp (TensorDockWrapper.init k t false) op o).ret := by
  cases op <;>
    simp [runOp, stop_server, start_server, modify_server, delete_server,
      list_virtual_machines, get_vm_details, soft_validate_new_spot_instance,
      soft_validate_existing_spot_instance, deploy_machine, list_available_hostnodes,
      list_authorizations, retrieve_balance, test_authorization, get_specific_hostnode,
      finishStandard_ret, finishParsed_ret, _send_request, TensorDockWrapper.init]

/-- C7: `get_specific_hostnode(id)` issues exactly one GET request (each
method calls `_send_request` once, recorded as the single `request` field)
to `client/deploy/hostnodes/<id>` under the base URL, with no request body
and no query params; in particular the id `"abc-123"` yields the URL
`https://marketplace.tensordock.com/api/v0/client/deploy/hostnodes/abc-123`. -/
theorem C7_get_specific_hostnode_request (k t : String) (d : Bool)
    (i : String) (o : HttpOutcome) :
    (get_specific_hostnode (TensorDockWrapper.init k t d) i o).request
      = { method := "GET",
          url := "https://marketplace.tensordock.com/api/v0/" ++ ("client/deploy/hostnodes/" ++ i),
          payload := Option.none,
          params := Option.none } ∧
    (get_specific_hostnode (TensorDockWrapper.init k t d) "abc-123" o).request.url
      = "https://marketplace.tensordock.com/api/v0/client/deploy/hostnodes/abc-123" := by
  constructor
  · simp only [get_specific_hostnode, finishParsed_request, _send_request_request]
    rfl
  · simp only [get_specific_hostnode, finishParsed_request, _send_request_request]
    rfl

/-- C8: when the server answers a `test_authorization` call with a 2xx
status and a JSON body, the operation returns exactly the decoded body; in
particular a server answering `{"success": true}` gets that object returned
unchanged. -/
theorem C8_test_authorization_returns_decoded_body (k t : String) (d : Bool)
    (status : Nat) (body : PyVal) (h1 : 200 ≤ status) (h2 : status < 300) :
    (test_authorization (TensorDockWrapper.init k t d)
        (HttpOutcome.response status body)).ret = Except.ok body := by
  have hs : raiseForStatusRaises status = false := by
    simp only [raiseForStatusRaises, Bool.and_eq_false_iff, decide_eq_false_iff_not]
    omega
  simp [test_authorization, finishStandard_ret, _send_request, hs]

/-- C8 witness: a concrete 200 answer `{"success": true}` is returned
unchanged. -/
theorem C8_witness :
    (test_authorization (TensorDockWrapper.init "KEY" "TOKEN" false)
        (HttpOutcome.response 200 (PyVal.dict [("success", PyVal.bool true)]))).ret
      = Except.ok (PyVal.dict [("success", PyVal.bool true)]) :=
  C8_test_authorization_returns_decoded_body "KEY" "TOKEN" false 200
    (PyVal.dict [("success", PyVal.bool true)]) (by decide) (by decide)

/-- C9: no public endpoint operation mutates the client instance: the
stored state (`base_url`, `api_key`, `api_token`, `debug`) after any call
equals the state before it, for every operation, input and HTTP outcome. -/
theorem C9_client_state_immutable (c : Client) (op : OpCall) (o : HttpOutcome) :
    (runOp c op o).client = c := by
  cases op <;>
    simp [runOp, stop_server, start_server, modify_server, delete_server,
      list_virtual_machines, get_vm_details, soft_validate_new_spot_instance,
      soft_validate_existing_spot_instance, deploy_machine, list_available_hostnodes,
      list_authorizations, retrieve_balance, test_authorization, get_specific_hostnode,
      finishStandard_client, finishParsed_client]

/-- C10: when `deploy_machine` is called with `price` omitted (`None`), the
transmitted `price` field is the literal string `"None"` (Python
`str(None)`), while the omitted `cpu_model`, `location`, `cloudinit_script`
and `price_type` are forwarded as raw `None` without stringification. -/
theorem C10_deploy_omitted_price_is_str_None (k t : String) (d : Bool)
    (n : String) (gc : Int) (gm : String) (v r : Int) (ep ip : List Int)
    (hn : String) (s : Int) (os pw dt : String) (o : HttpOutcome) :
    (((deploy_machine (TensorDockWrapper.init k t d) n gc gm v r ep ip hn s os pw dt
        Option.none Option.none Option.none Option.none Option.none o).request.payload.getD
          []).lookup "price" = Option.some (PyVal.str "None")) ∧
    (((deploy_machine (TensorDockWrapper.init k t d) n gc gm v r ep ip hn s os pw dt
        Option.none Option.none Option.none Option.none Option.none o).request.payload.getD
          []).lookup "cpu_model" = Option.some PyVal.none) ∧
    (((deploy_machine (TensorDockWrapper.init k t d) n gc gm v r ep ip hn s os pw dt
        Option.none Option.none Option.none Option.none Option.none o).request.payload.getD
          []).lookup "location" = Option.some PyVal.none) ∧
    (((deploy_machine (TensorDockWrapper.init k t d) n gc gm v r ep ip hn s os pw dt
        Option.none Option.none Option.none Option.none Option.none o).request.payload.getD
          []).lookup "cloudinit_script" = Option.some PyVal.none) ∧
    (((deploy_machine (TensorDockWrapper.init k t d) n gc gm v r ep ip hn s os pw dt
        Option.none Option.none Option.none Option.none Option.none o).request.payload.getD
          []).lookup "price_type" = Option.some PyVal.none) := by
  simp only [deploy_machine, finishStandard_request, _send_request_request]
  exact ⟨rfl, rfl, rfl, rfl, rfl⟩
